import Mathlib

/-!
Shallow embedding of the operation-orchestrator frontend of the
wtg-assistant-tauri repository (src/src/pages/Write.tsx,
src/src/pages/Configure.tsx, src/src/pages/Benchmark.tsx,
src/src/services/store.ts, src/src/types/index.ts).

Numbers of the source (JS `number`) are modelled as `ℚ` where fractional
arithmetic matters and as `ℕ` where the source only ever stores integer
constants.  Fallible backend commands are modelled as values of
`Except String α` handed to the pure transition functions.
-/

namespace Wtg

/-- Closed union `PartitionLayout` from src/src/types/index.ts. -/
inductive PartitionLayout where
  | mbr
  | gpt
deriving DecidableEq, Repr

/-- Closed union `ApplyMode` from src/src/types/index.ts. -/
inductive ApplyMode where
  | legacy
  | vhd
  | vhdx
deriving DecidableEq, Repr

/-- Closed union `BootMode` from src/src/types/index.ts. -/
inductive BootMode where
  | uefi_gpt
  | uefi_mbr
  | non_uefi
deriving DecidableEq, Repr

/-- Closed union `VhdType` from src/src/types/index.ts. -/
inductive VhdType where
  | fixed
  | expandable
deriving DecidableEq, Repr

/-- Closed union `ImageType` from src/src/types/index.ts. -/
inductive ImageType where
  | wim
  | esd
  | iso
  | vhd
  | vhdx
deriving DecidableEq, Repr

/-- Closed union `WriteStatus` from src/src/types/index.ts. -/
inductive WriteStatus where
  | idle
  | preparing
  | partitioning
  | applyingimage
  | writingbootfiles
  | fixingbcd
  | copyingvhd
  | applyingextras
  | verifying
  | completed
  | failed
  | cancelled
deriving DecidableEq, Repr

/-- The terminal statuses (`completed`, `failed`, `cancelled`); the spec's
closed enumeration lists these as the states no transition leaves. -/
def WriteStatus.isTerminal : WriteStatus → Bool
  | .completed => true
  | .failed => true
  | .cancelled => true
  | _ => false

/-- Interface `WriteProgress` from src/src/types/index.ts: the payload of the
`start_write` reply and of every `write-progress` event. -/
structure WriteProgress where
  task_id : String
  status : WriteStatus
  progress : ℚ
  message : String
  speed : Option ℚ
  elapsed_seconds : Option ℚ
  estimated_remaining_seconds : Option ℚ
deriving DecidableEq, Repr

/-- Interface `DiskInfo` from src/src/types/index.ts (optional fields are
`Option`s, matching the `?` marks of the TypeScript interface). -/
structure DiskInfo where
  id : String
  name : String
  size : ℕ
  removable : Bool
  device : String
  drive_type : Option String
  media_type : Option String
  index : Option String
  volume : Option String
  free : Option ℚ
  is_system : Option Bool
deriving DecidableEq, Repr

/-- Interface `Disk` from src/src/types/index.ts, as populated by
`buildTargetDisk` in src/src/pages/Write.tsx (all displayed fields
mandatory there). -/
structure Disk where
  id : String
  name : String
  size : ℕ
  removable : Bool
  device : String
  drive_type : String
  index : String
  volume : String
deriving DecidableEq, Repr

/-- Interface `ExtraFeatures` from src/src/types/index.ts. -/
structure ExtraFeatures where
  install_dotnet35 : Bool
  block_local_disk : Bool
  disable_winre : Bool
  skip_oobe : Bool
  disable_uasp : Bool
  enable_bitlocker : Bool
  fix_letter : Bool
  no_default_drive_letter : Bool
  compact_os : Bool
  wimboot : Bool
  ntfs_uefi_support : Bool
  do_not_format : Bool
  repartition : Bool
  driver_path : Option String
deriving DecidableEq, Repr

/-- Function `defaultExtraFeatures` from src/src/types/index.ts. -/
def defaultExtraFeatures : ExtraFeatures where
  install_dotnet35 := false
  block_local_disk := true
  disable_winre := true
  skip_oobe := false
  disable_uasp := false
  enable_bitlocker := false
  fix_letter := false
  no_default_drive_letter := false
  compact_os := false
  wimboot := false
  ntfs_uefi_support := false
  do_not_format := false
  repartition := false
  driver_path := none

/-- Interface `PartitionConfig` from src/src/types/index.ts. -/
structure PartitionConfig where
  boot_size : ℕ
  partition_layout : PartitionLayout
  extra_partition_sizes : Option (List ℕ)
deriving DecidableEq, Repr

/-- Interface `VhdConfig` from src/src/types/index.ts. -/
structure VhdConfig where
  size_mb : ℕ
  vhd_type : VhdType
  extension : String
  filename : Option String
  partition_type : Option ℕ
deriving DecidableEq, Repr

/-- Interface `WtgConfig` from src/src/types/index.ts: the task descriptor
handed to the `start_write` command. -/
structure WtgConfig where
  image_path : String
  image_type : ImageType
  wim_index : Option String
  target_disk : Disk
  boot_mode : BootMode
  apply_mode : ApplyMode
  partition_config : PartitionConfig
  vhd_config : Option VhdConfig
  extra_features : ExtraFeatures
  efi_partition_size : Option String
  efi_partition_path : Option String
deriving DecidableEq, Repr

/-- Interface `MacosTargetWritableCheck` from src/src/types/index.ts. -/
structure MacosTargetWritableCheck where
  supported : Bool
  disk_id : String
  partition_id : Option String
  mount_point : Option String
  filesystem : String
  writable_volume : Bool
  dir_writable : Bool
  writable : Bool
  needs_ntfs_remount : Bool
  reason : Option String
deriving DecidableEq, Repr

/-- JavaScript string defaulting `v || dflt`: `undefined` and the empty
string both fall back to the default (used by `buildTargetDisk`). -/
def jsStringOr (v : Option String) (dflt : String) : String :=
  match v with
  | none => dflt
  | some s => if s = "" then dflt else s

/-- Lower-casing a string character by character (JavaScript
`toLowerCase` restricted to the ASCII file extensions it is applied to). -/
def jsLower (s : String) : String :=
  String.mk (s.data.map Char.toLower)

/-- The extension of a path as the source computes it:
`path.split('.').pop()?.toLowerCase() || ''` (src/src/pages/Write.tsx,
`getImageType`, and the same expression in src/src/pages/Configure.tsx,
`handleSelectImage`).  The last component of the split is the run of
characters after the last dot, or the whole path when it has no dot. -/
def pathExt (path : String) : String :=
  jsLower (String.mk ((path.data.reverse.takeWhile fun c => c ≠ '.').reverse))

/-- Function `getImageType` from src/src/pages/Write.tsx: extensions other
than the recognised five default to `wim`. -/
def getImageType (path : String) : ImageType :=
  match pathExt path with
  | "wim" => .wim
  | "esd" => .esd
  | "iso" => .iso
  | "vhd" => .vhd
  | "vhdx" => .vhdx
  | _ => .wim

/-- The slice of the zustand store plus the `WritePage` component state that
the write flow reads and writes (src/src/services/store.ts and the
`useState` hooks of src/src/pages/Write.tsx). -/
structure WriteUiState where
  isWriting : Bool
  writeProgress : Option WriteProgress
  errorMsg : Option String
  showEraseConfirmModal : Bool
  showNtfsSafetyModal : Bool
  eraseConfirmCountdown : ℕ
  macosWritableCheck : Option MacosTargetWritableCheck
deriving DecidableEq, Repr

/-- Store defaults (src/src/services/store.ts) and `useState` initial values
(src/src/pages/Write.tsx). -/
def initWriteUiState : WriteUiState where
  isWriting := false
  writeProgress := none
  errorMsg := none
  showEraseConfirmModal := false
  showNtfsSafetyModal := false
  eraseConfirmCountdown := 0
  macosWritableCheck := none

/-- The user selections the write flow reads: store fields of
src/src/services/store.ts (with their defaults in `baseInputs` below) plus
the host-platform flag `isMacHost` computed in src/src/pages/Write.tsx. -/
structure WriteInputs where
  imagePath : String
  selectedDisk : Option DiskInfo
  bootMode : BootMode
  applyMode : ApplyMode
  extraFeatures : ExtraFeatures
  efiPartitionSize : String
  vhdSizeMb : ℕ
  vhdType : VhdType
  vhdExtension : String
  selectedWimIndex : String
  isMacHost : Bool
deriving DecidableEq, Repr

/-- The store's initial values (src/src/services/store.ts) on a
non-macOS host. -/
def baseInputs : WriteInputs where
  imagePath := ""
  selectedDisk := none
  bootMode := .uefi_gpt
  applyMode := .legacy
  extraFeatures := defaultExtraFeatures
  efiPartitionSize := "300"
  vhdSizeMb := 40960
  vhdType := .expandable
  vhdExtension := "vhdx"
  selectedWimIndex := "0"
  isMacHost := false

/-- Function `buildTargetDisk` from src/src/pages/Write.tsx, on a present
disk: optional display fields default to `''` resp. `'0'` via `||`. -/
def buildTargetDisk (d : DiskInfo) : Disk where
  id := d.id
  name := d.name
  size := d.size
  removable := d.removable
  device := d.device
  drive_type := jsStringOr d.drive_type ""
  index := jsStringOr d.index "0"
  volume := jsStringOr d.volume ""

/-- The `WtgConfig` literal assembled inside `startWrite`
(src/src/pages/Write.tsx lines 156-180): `boot_size` is the constant 300,
the partition layout is derived from the boot mode, and a `vhd_config` is
attached exactly for the virtual-disk apply modes. -/
def buildWtgConfig (inp : WriteInputs) (target : Disk) : WtgConfig where
  image_path := inp.imagePath
  image_type := getImageType inp.imagePath
  wim_index := some inp.selectedWimIndex
  target_disk := target
  boot_mode := inp.bootMode
  apply_mode := inp.applyMode
  partition_config :=
    { boot_size := 300
      partition_layout := if inp.bootMode = BootMode.non_uefi then .mbr else .gpt
      extra_partition_sizes := none }
  vhd_config :=
    if inp.applyMode = ApplyMode.vhd ∨ inp.applyMode = ApplyMode.vhdx then
      some { size_mb := inp.vhdSizeMb
             vhd_type := inp.vhdType
             extension := inp.vhdExtension
             filename := some "win8"
             partition_type := some 0 }
    else none
  extra_features := inp.extraFeatures
  efi_partition_size := some inp.efiPartitionSize
  efi_partition_path := none

/-- The fallback text of `t('configure.macVhdUnsupported')` in
src/src/pages/Write.tsx line 147 (the localized variant differs only in
wording; the flow never inspects the text). -/
def macVhdUnsupportedMessage : String :=
  "VHD/VHDX apply mode is currently unavailable on macOS."

/-- How far `startWrite` got: returned early for a missing target/source,
rejected the macOS virtual-disk combination, or issued `start_write` with
the assembled descriptor. -/
inductive StartWriteOutcome where
  | missingTargetOrImage
  | macVhdRejected
  | launched (config : WtgConfig)
deriving DecidableEq, Repr

/-- Function `startWrite` from src/src/pages/Write.tsx (lines 144-198).
The backend command `start_write` is passed in as a function from the
descriptor to its reply.  The transient `setWriting(true)` is undone by the
`finally` block, so the resulting state carries `isWriting = false` on both
reply branches; on a rejected launch the catch block records the error text
and a `failed` progress view with an empty task id. -/
def startWrite (inp : WriteInputs)
    (backend : WtgConfig → Except String WriteProgress)
    (s : WriteUiState) : StartWriteOutcome × WriteUiState :=
  match inp.selectedDisk with
  | none => (.missingTargetOrImage, s)
  | some d =>
    if inp.imagePath = "" then (.missingTargetOrImage, s)
    else if inp.isMacHost = true ∧
        (inp.applyMode = ApplyMode.vhd ∨ inp.applyMode = ApplyMode.vhdx) then
      (.macVhdRejected, { s with errorMsg := some macVhdUnsupportedMessage })
    else
      let cfg := buildWtgConfig inp (buildTargetDisk d)
      match backend cfg with
      | .ok r =>
        (.launched cfg, { s with isWriting := false, writeProgress := some r })
      | .error e =>
        (.launched cfg,
          { s with
              isWriting := false
              errorMsg := some e
              writeProgress := some
                { task_id := ""
                  status := .failed
                  progress := 0
                  message := e
                  speed := none
                  elapsed_seconds := none
                  estimated_remaining_seconds := none } })

/-- The `write-progress` event listener of src/src/pages/Write.tsx
(lines 107-123): each inbound event is handed to `setWriteProgress`
(src/src/services/store.ts line 121), which stores the payload as the new
view without examining it. -/
def handleWriteProgressEvent (s : WriteUiState) (ev : WriteProgress) :
    WriteUiState :=
  { s with writeProgress := some ev }

/-- Function `handleSelectImage` from src/src/pages/Configure.tsx
(image-info retrieval for wim/esd only populates a list that the write flow
does not consult; the selection's effect on the modelled inputs is the new
path and, for virtual-disk extensions, the forced apply mode of
lines 87-89). -/
def handleSelectImage (inp : WriteInputs) (path : String) : WriteInputs :=
  let ext := pathExt path
  let inp1 := { inp with imagePath := path }
  if ext = "vhd" then { inp1 with applyMode := ApplyMode.vhd }
  else if ext = "vhdx" then { inp1 with applyMode := ApplyMode.vhdx }
  else inp1

/-- The apply-mode radio buttons of src/src/pages/Configure.tsx
(`setApplyMode` of src/src/services/store.ts): always available, simply
overwrite the stored mode. -/
def chooseApplyMode (inp : WriteInputs) (m : ApplyMode) : WriteInputs :=
  { inp with applyMode := m }

/-- Function `handleStartWriteClick` from src/src/pages/Write.tsx
(lines 200-235).  The platform pre-flight command
`check_macos_target_writable` is passed in as its `Except` reply; opening
the erase-confirmation dialog resets the countdown to 2 via the effect of
lines 125-142. -/
def handleStartWriteClick (inp : WriteInputs)
    (checkResult : Except String MacosTargetWritableCheck)
    (s : WriteUiState) : WriteUiState :=
  match inp.selectedDisk with
  | none => s
  | some _ =>
    if inp.imagePath = "" then s
    else if inp.isMacHost = false then
      { s with showEraseConfirmModal := true, eraseConfirmCountdown := 2 }
    else if inp.extraFeatures.repartition = true ∨
        inp.extraFeatures.do_not_format = false then
      { s with
          macosWritableCheck := none
          showNtfsSafetyModal := false
          showEraseConfirmModal := true
          eraseConfirmCountdown := 2 }
    else
      match checkResult with
      | .error e => { s with errorMsg := some e }
      | .ok c =>
        if c.needs_ntfs_remount = true then
          { s with
              errorMsg := none
              macosWritableCheck := some c
              showNtfsSafetyModal := true }
        else
          { s with
              errorMsg := none
              macosWritableCheck := some c
              showEraseConfirmModal := true
              eraseConfirmCountdown := 2 }

/-- Function `handleConfirmNtfsRemount` from src/src/pages/Write.tsx
(lines 237-253), with the `remount_macos_target_ntfs_writable` command
passed in as its reply.  On a successful command the NTFS dialog closes and
the erase confirmation opens; the returned check is stored but none of its
fields are consulted. -/
def handleConfirmNtfsRemount (inp : WriteInputs)
    (remountResult : Except String MacosTargetWritableCheck)
    (s : WriteUiState) : WriteUiState :=
  match inp.selectedDisk with
  | none => s
  | some _ =>
    match remountResult with
    | .error e => { s with errorMsg := some e }
    | .ok c =>
      { s with
          errorMsg := none
          macosWritableCheck := some c
          showNtfsSafetyModal := false
          showEraseConfirmModal := true
          eraseConfirmCountdown := 2 }

/-- One firing of the one-second interval installed by the countdown effect
of src/src/pages/Write.tsx (lines 125-142); the interval exists only while
the dialog is open (the effect's cleanup clears it). -/
def eraseCountdownTick (s : WriteUiState) : WriteUiState :=
  if s.showEraseConfirmModal = true then
    { s with
        eraseConfirmCountdown :=
          if s.eraseConfirmCountdown ≤ 1 then 0
          else s.eraseConfirmCountdown - 1 }
  else s

/-- The cancel button of the erase-confirmation dialog
(src/src/pages/Write.tsx line 396). -/
def closeEraseConfirmModal (s : WriteUiState) : WriteUiState :=
  { s with showEraseConfirmModal := false }

/-- Function `handleConfirmStartWrite` from src/src/pages/Write.tsx
(lines 255-259): a click while the countdown is positive returns without
any effect (the control is also rendered disabled then); at zero the dialog
closes and `startWrite` runs.  The first component records whether
`startWrite` was invoked at all. -/
def handleConfirmStartWrite (inp : WriteInputs)
    (backend : WtgConfig → Except String WriteProgress)
    (s : WriteUiState) : Option StartWriteOutcome × WriteUiState :=
  if 0 < s.eraseConfirmCountdown then (none, s)
  else
    let res := startWrite inp backend { s with showEraseConfirmModal := false }
    (some res.1, res.2)

/-- Upper-casing a string character by character (JavaScript
`toUpperCase` restricted to the ASCII media-type labels it is applied
to). -/
def jsUpper (s : String) : String :=
  String.mk (s.data.map Char.toUpper)

/-- Substring test as JavaScript `String.prototype.includes` on the
character list of a string. -/
def strHasSubstr (s sub : String) : Bool :=
  s.data.tails.any fun t => sub.data.isPrefixOf t

/-- JavaScript `Math.round` (round half toward positive infinity) as a
rational. -/
def jsRound (q : ℚ) : ℚ :=
  (⌊q + 1 / 2⌋ : ℤ)

/-- Union `PrimaryBenchmarkMode` of src/src/pages/Benchmark.tsx: exactly one
is selected via radio buttons. -/
inductive PrimaryBenchmarkMode where
  | quick
  | multithread
  | full
deriving DecidableEq, Repr

/-- Union `BenchmarkMode` of src/src/pages/Benchmark.tsx (primary modes plus
the two stackable extra modes `fullwrite` and `scenario`). -/
inductive BenchmarkMode where
  | quick
  | multithread
  | full
  | fullwrite
  | scenario
deriving DecidableEq, Repr

/-- Inclusion of the primary modes into all benchmark modes. -/
def PrimaryBenchmarkMode.toMode : PrimaryBenchmarkMode → BenchmarkMode
  | .quick => .quick
  | .multithread => .multithread
  | .full => .full

/-- Table `MODE_BASE_ESTIMATE_SECONDS` of src/src/pages/Benchmark.tsx
(lines 15-20); `fullwrite` deliberately has no entry there. -/
def MODE_BASE_ESTIMATE_SECONDS : BenchmarkMode → ℚ
  | .quick => 15
  | .multithread => 305
  | .full => 930
  | .scenario => 930
  | .fullwrite => 0

/-- The fields of the selected `DiskInfo` that the benchmark estimator
reads (`selectedDisk?.free`, `selectedDisk?.media_type`). -/
structure BenchDiskInfo where
  free : Option ℚ
  media_type : Option String
deriving Repr

/-- Function `estimateModeSeconds` of src/src/pages/Benchmark.tsx
(lines 238-245): table lookup for every mode except `fullwrite`, whose
estimate is derived from the target's free capacity and an assumed
throughput (120 MB/s for rotational media, 280 MB/s otherwise), rounded and
clamped to [60 s, 7200 s]. -/
def estimateModeSeconds (disk : Option BenchDiskInfo) :
    BenchmarkMode → ℚ
  | .quick => MODE_BASE_ESTIMATE_SECONDS .quick
  | .multithread => MODE_BASE_ESTIMATE_SECONDS .multithread
  | .full => MODE_BASE_ESTIMATE_SECONDS .full
  | .scenario => MODE_BASE_ESTIMATE_SECONDS .scenario
  | .fullwrite =>
    let freeBytes : ℚ := max 0 ((disk.bind (·.free)).getD 0)
    let media : String := jsUpper ((disk.bind (·.media_type)).getD "")
    let assumedMbS : ℚ :=
      if strHasSubstr media "HDD" = true ∨
          strHasSubstr media "ROTATIONAL" = true then 120 else 280
    let estimated : ℚ := freeBytes / 1024 / 1024 / assumedMbS
    max 60 (min (2 * 3600) (jsRound estimated))

/-- The component state of `BenchmarkPage` (src/src/pages/Benchmark.tsx)
that the progress estimator reads: the run flag, the selected mode queue,
which modes already have a recorded result, the in-flight mode with its
start instant, the current clock instant (milliseconds), and the selected
disk's estimator-relevant fields. -/
structure BenchPageState where
  running : Bool
  primaryMode : PrimaryBenchmarkMode
  extraFullwrite : Bool
  extraScenario : Bool
  results : BenchmarkMode → Bool
  currentMode : Option BenchmarkMode
  currentModeStartedAt : Option ℚ
  progressNowMs : ℚ
  selectedDisk : Option BenchDiskInfo

/-- Memo `selectedModes` of src/src/pages/Benchmark.tsx (lines 228-236):
the primary mode followed by the enabled extra modes in the fixed order
`fullwrite`, `scenario`. -/
def selectedModes (s : BenchPageState) : List BenchmarkMode :=
  s.primaryMode.toMode ::
    ((if s.extraFullwrite = true then [BenchmarkMode.fullwrite] else []) ++
      (if s.extraScenario = true then [BenchmarkMode.scenario] else []))

/-- The `reduce` computing the total time budget of the selected modes. -/
def sumEstimates (disk : Option BenchDiskInfo) (l : List BenchmarkMode) : ℚ :=
  (l.map (estimateModeSeconds disk)).sum

/-- The `reduce` computing the budget of the modes with a recorded result. -/
def doneEstimates (disk : Option BenchDiskInfo)
    (results : BenchmarkMode → Bool) (l : List BenchmarkMode) : ℚ :=
  (l.map fun m =>
    if results m = true then estimateModeSeconds disk m else 0).sum

/-- The `currentEstimate` binding of `progressPercent`: the in-flight
mode's estimate, or 0 when no mode is in flight. -/
def currentEstimateOf (s : BenchPageState) : ℚ :=
  match s.currentMode with
  | none => 0
  | some m => estimateModeSeconds s.selectedDisk m

/-- The `elapsedSec` binding of `progressPercent`: seconds since the
in-flight mode started, floored at 0, or 0 when no start instant is
recorded. -/
def elapsedSecOf (s : BenchPageState) : ℚ :=
  match s.currentModeStartedAt with
  | none => 0
  | some t0 => max 0 ((s.progressNowMs - t0) / 1000)

/-- Memo `progressPercent` of src/src/pages/Benchmark.tsx (lines 247-258):
100 when no run is in progress; otherwise the time-budget heuristic —
finished modes contribute their whole estimate, the in-flight mode
contributes `min(elapsed, 0.92 × estimate)`, and the quotient by the total
budget is scaled to 80 and clamped to [1, 80]. -/
def progressPercent (s : BenchPageState) : ℚ :=
  if s.running = false then 100
  else
    let totalEstimate : ℚ := max 1 (sumEstimates s.selectedDisk (selectedModes s))
    let doneEstimate : ℚ :=
      doneEstimates s.selectedDisk s.results (selectedModes s)
    let runningContribution : ℚ :=
      min (elapsedSecOf s) (currentEstimateOf s * (92 / 100))
    let raw : ℚ := ((doneEstimate + runningContribution) / totalEstimate) * 80
    max 1 (min 80 raw)

/-- Modelled from the spec: the aggregate-percentage formula exactly as the
claim words it — "(sum of estimates of modes with recorded results +
min(elapsed seconds of the running mode, 0.92 × that mode's estimate)) /
total estimate of all selected modes, scaled by 80" — with no clamping.
Written for comparison against `progressPercent`. -/
def specAggregate (s : BenchPageState) : ℚ :=
  let total : ℚ := sumEstimates s.selectedDisk (selectedModes s)
  let done : ℚ := doneEstimates s.selectedDisk s.results (selectedModes s)
  ((done + min (elapsedSecOf s) ((92 / 100) * currentEstimateOf s)) / total) * 80

/-! Concrete fixtures used by witnesses and counterexamples. -/

/-- A removable target disk as `list_disks` would report it. -/
def diskA : DiskInfo where
  id := "disk1"
  name := "SanDisk Ultra"
  size := 64000000000
  removable := true
  device := "\\\\.\\PhysicalDrive2"
  drive_type := some "USB"
  media_type := some "SSD"
  index := some "2"
  volume := some "E"
  free := some 32000000000
  is_system := some false

/-- An initial reply a successful `start_write` could return. -/
def sampleOkProgress : WriteProgress where
  task_id := "abc"
  status := .preparing
  progress := 0
  message := "starting"
  speed := none
  elapsed_seconds := none
  estimated_remaining_seconds := none

/-- A backend accepting every descriptor with `sampleOkProgress`. -/
def okBackend : WtgConfig → Except String WriteProgress :=
  fun _ => .ok sampleOkProgress

/-- A backend rejecting every descriptor. -/
def errBackend : WtgConfig → Except String WriteProgress :=
  fun _ => .error "device unreachable"

/-- A second accepting backend, distinguishable from `okBackend` by its
reply. -/
def okBackend2 : WtgConfig → Except String WriteProgress :=
  fun _ => .ok { sampleOkProgress with message := "queued" }

/-- A mid-task view for task `"abc"`. -/
def vAbc : WriteProgress where
  task_id := "abc"
  status := .applyingimage
  progress := 10
  message := "applying"
  speed := none
  elapsed_seconds := none
  estimated_remaining_seconds := none

/-- An event for an unrelated task `"xyz"`. -/
def evXyz : WriteProgress where
  task_id := "xyz"
  status := .verifying
  progress := 50
  message := "old task"
  speed := none
  elapsed_seconds := none
  estimated_remaining_seconds := none

/-- The Ui state currently tracking `vAbc`. -/
def sAbc : WriteUiState :=
  { initWriteUiState with isWriting := true, writeProgress := some vAbc }

/-- A terminal view: task `"abc"` completed at 100. -/
def vAbcDone : WriteProgress where
  task_id := "abc"
  status := .completed
  progress := 100
  message := "done"
  speed := none
  elapsed_seconds := none
  estimated_remaining_seconds := none

/-- A late event for the same task `"abc"` arriving after completion. -/
def evAbcLate : WriteProgress where
  task_id := "abc"
  status := .applyingimage
  progress := 50
  message := "late replay"
  speed := none
  elapsed_seconds := none
  estimated_remaining_seconds := none

/-- The Ui state after `vAbcDone` was observed. -/
def sAbcDone : WriteUiState :=
  { initWriteUiState with writeProgress := some vAbcDone }

/-- Inputs after the user picks the image `D:\win.vhdx` (which forces the
apply mode to `vhdx`) and then re-selects the `legacy` apply mode. -/
def inpC3 : WriteInputs :=
  chooseApplyMode
    (handleSelectImage { baseInputs with selectedDisk := some diskA }
      "D:\\win.vhdx")
    ApplyMode.legacy

/-- The descriptor `startWrite` assembles for `inpC3`. -/
def cfgC3 : WtgConfig :=
  buildWtgConfig inpC3 (buildTargetDisk diskA)

/-- Extract the descriptor from a launched outcome. -/
def launchedConfig : StartWriteOutcome → Option WtgConfig
  | .launched cfg => some cfg
  | _ => none

/-- Valid non-mac inputs for a plain wim deployment. -/
def inpWim : WriteInputs :=
  { baseInputs with imagePath := "D:\\install.wim", selectedDisk := some diskA }

/-- macOS host inputs with the `vhdx` apply mode selected. -/
def inpMacVhdx : WriteInputs :=
  { baseInputs with
      imagePath := "/Users/u/win.vhdx"
      selectedDisk := some diskA
      applyMode := ApplyMode.vhdx
      isMacHost := true }

/-- macOS host inputs on the pre-flight path: no repartition and
`do_not_format` set, so the writability check is not skipped. -/
def inpMacSafe : WriteInputs :=
  { baseInputs with
      imagePath := "/Users/u/install.wim"
      selectedDisk := some diskA
      extraFeatures := { defaultExtraFeatures with do_not_format := true }
      isMacHost := true }

/-- A check reporting that an NTFS remount is required. -/
def checkNeedsRemount : MacosTargetWritableCheck where
  supported := true
  disk_id := "disk4"
  partition_id := some "disk4s1"
  mount_point := some "/Volumes/WTG"
  filesystem := "ntfs"
  writable_volume := false
  dir_writable := false
  writable := false
  needs_ntfs_remount := true
  reason := some "mounted read-only"

/-- A remount reply whose second writability check still fails. -/
def checkStillNotWritable : MacosTargetWritableCheck where
  supported := true
  disk_id := "disk4"
  partition_id := some "disk4s1"
  mount_point := some "/Volumes/WTG"
  filesystem := "ntfs"
  writable_volume := false
  dir_writable := false
  writable := false
  needs_ntfs_remount := true
  reason := some "remount did not take effect"

/-- The Ui state right after the pre-flight reported `checkNeedsRemount`:
the NTFS safety dialog is open and the erase confirmation is not. -/
def sNtfsPending : WriteUiState :=
  handleStartWriteClick inpMacSafe (.ok checkNeedsRemount) initWriteUiState

/-- Benchmark state: queue `[quick]`, the quick mode in flight for 7.5 s,
no result yet (the spec's example scenario 4). -/
def quickRunState : BenchPageState where
  running := true
  primaryMode := .quick
  extraFullwrite := false
  extraScenario := false
  results := fun _ => false
  currentMode := some .quick
  currentModeStartedAt := some 0
  progressNowMs := 7500
  selectedDisk := none

/-- Benchmark state: queue `[quick]`, the quick mode just started
(elapsed 0). -/
def quickJustStartedState : BenchPageState :=
  { quickRunState with progressNowMs := 0 }

/-- Benchmark state: queue `[quick]`, the quick result already recorded but
the run not yet marked finished. -/
def quickAllDoneState : BenchPageState where
  running := true
  primaryMode := .quick
  extraFullwrite := false
  extraScenario := false
  results := fun m => match m with | .quick => true | _ => false
  currentMode := none
  currentModeStartedAt := none
  progressNowMs := 20000
  selectedDisk := none

/-- Benchmark state with no run in progress. -/
def benchIdleState : BenchPageState :=
  { quickRunState with running := false }

/-- The write-flow state right after a successful launch of `inpWim`. -/
def stateAfterWimLaunch : WriteUiState :=
  { initWriteUiState with writeProgress := some sampleOkProgress }

/-- The Ui state right after a non-mac start click opened the erase
confirmation (countdown freshly reset to 2). -/
def sEraseOpened : WriteUiState :=
  handleStartWriteClick inpWim (Except.ok checkNeedsRemount) initWriteUiState

/-! Helper lemmas shared by the benchmark theorems. -/

/-- Every per-mode time estimate is at least 15 seconds: the smallest table
entry is `quick`'s 15, and the derived `fullwrite` estimate is clamped to
at least 60. -/
theorem estimateModeSeconds_ge_15 (disk : Option BenchDiskInfo)
    (m : BenchmarkMode) : (15 : ℚ) ≤ estimateModeSeconds disk m := by
  cases m with
  | quick => norm_num [estimateModeSeconds, MODE_BASE_ESTIMATE_SECONDS]
  | multithread => norm_num [estimateModeSeconds, MODE_BASE_ESTIMATE_SECONDS]
  | full => norm_num [estimateModeSeconds, MODE_BASE_ESTIMATE_SECONDS]
  | scenario => norm_num [estimateModeSeconds, MODE_BASE_ESTIMATE_SECONDS]
  | fullwrite =>
    simp only [estimateModeSeconds]
    exact le_trans (by norm_num) (le_max_left _ _)

/-- Per-mode time estimates are nonnegative. -/
theorem estimateModeSeconds_nonneg (disk : Option BenchDiskInfo)
    (m : BenchmarkMode) : (0 : ℚ) ≤ estimateModeSeconds disk m :=
  le_trans (by norm_num) (estimateModeSeconds_ge_15 disk m)

/-- The total time budget of the selected queue is at least 15 seconds,
because the queue always contains the primary mode. -/
theorem sumEstimates_selected_ge_15 (s : BenchPageState) :
    (15 : ℚ) ≤ sumEstimates s.selectedDisk (selectedModes s) := by
  have hrest : (0 : ℚ) ≤
      (((if s.extraFullwrite = true then [BenchmarkMode.fullwrite] else []) ++
          (if s.extraScenario = true then [BenchmarkMode.scenario] else [])).map
        (estimateModeSeconds s.selectedDisk)).sum := by
    apply List.sum_nonneg
    intro x hx
    rcases List.mem_map.mp hx with ⟨m, _, rfl⟩
    exact estimateModeSeconds_nonneg _ _
  have hhead := estimateModeSeconds_ge_15 s.selectedDisk s.primaryMode.toMode
  simp only [sumEstimates, selectedModes, List.map_cons, List.sum_cons]
  linarith

/-- Whenever `startWrite` launches, the launched descriptor is exactly the
one `buildWtgConfig` assembles from the current inputs and the selected
disk. -/
theorem startWrite_launched_eq (inp : WriteInputs)
    (backend : WtgConfig → Except String WriteProgress) (s : WriteUiState)
    (cfg : WtgConfig) (s2 : WriteUiState)
    (h : startWrite inp backend s = (StartWriteOutcome.launched cfg, s2)) :
    ∃ d, inp.selectedDisk = some d ∧
      cfg = buildWtgConfig inp (buildTargetDisk d) := by
  cases hdisk : inp.selectedDisk with
  | none => simp [startWrite, hdisk] at h
  | some d =>
    refine ⟨d, rfl, ?_⟩
    by_cases hpath : inp.imagePath = ""
    · simp [startWrite, hdisk, hpath] at h
    · by_cases hplat : inp.isMacHost = true ∧
          (inp.applyMode = ApplyMode.vhd ∨ inp.applyMode = ApplyMode.vhdx)
      · simp [startWrite, hdisk, hpath, hplat] at h
      · cases hb : backend (buildWtgConfig inp (buildTargetDisk d)) with
        | ok r =>
          simp [startWrite, hdisk, hpath, hplat, hb] at h
          exact h.1.symm
        | error e =>
          simp [startWrite, hdisk, hpath, hplat, hb] at h
          exact h.1.symm

/-- C1. The claim states that an inbound `write-progress` event whose
`task_id` differs from the tracked view's id leaves the view unchanged.
The listener of src/src/pages/Write.tsx (lines 107-123) hands every payload
to `setWriteProgress` unchecked, so the event for the unrelated task
`"xyz"` replaces the tracked `"abc"` view: the claim is false. -/
theorem stale_event_alters_view_cex :
    sAbc.writeProgress = some vAbc ∧ evXyz.task_id ≠ vAbc.task_id ∧
      (handleWriteProgressEvent sAbc evXyz).writeProgress ≠
        sAbc.writeProgress := by
  refine ⟨rfl, by decide, by decide⟩

/-- C1 (amended). Processing an inbound `write-progress` event always
replaces the current view with the event's payload (last-write-wins); no
task-id comparison is performed, so events for a stale task id also take
effect. -/
theorem write_event_last_write_wins (s : WriteUiState) (ev : WriteProgress) :
    (handleWriteProgressEvent s ev).writeProgress = some ev := rfl

/-- C2. The claim states that once the tracked view is terminal, no later
event for the same task id changes the observed state.  A late replayed
event for task `"abc"` after its `completed` view demotes the status back
to `applyingimage` at progress 50: the claim is false. -/
theorem terminal_state_overwritten_cex :
    (WriteStatus.isTerminal vAbcDone.status) = true ∧
      evAbcLate.task_id = vAbcDone.task_id ∧
      sAbcDone.writeProgress = some vAbcDone ∧
      (handleWriteProgressEvent sAbcDone evAbcLate).writeProgress ≠
        some vAbcDone := by
  refine ⟨rfl, rfl, rfl, by decide⟩

/-- C2 (amended). Terminal statuses are not latched: even when the tracked
view is `completed`, `failed` or `cancelled`, a subsequently processed
event replaces the whole view with its own payload. -/
theorem write_event_applied_after_terminal (s : WriteUiState)
    (v ev : WriteProgress) (_hview : s.writeProgress = some v)
    (_hterm : (WriteStatus.isTerminal v.status) = true) :
    (handleWriteProgressEvent s ev).writeProgress = some ev := rfl

/-- Witness for C2 (amended): the concrete terminal view `vAbcDone` is
overwritten by the late event. -/
theorem write_event_applied_after_terminal_witness :
    sAbcDone.writeProgress = some vAbcDone ∧
      (WriteStatus.isTerminal vAbcDone.status) = true ∧
      (handleWriteProgressEvent sAbcDone evAbcLate).writeProgress =
        some evAbcLate :=
  ⟨rfl, rfl, write_event_applied_after_terminal sAbcDone vAbcDone evAbcLate rfl rfl⟩

/-- C7. When the `start_write` command rejects, the catch block of
`startWrite` (src/src/pages/Write.tsx lines 187-195) records a `failed`
view carrying the error text as message, progress 0 and the empty task id,
and the `finally` block clears the writing flag. -/
theorem launch_error_sets_failed_view (inp : WriteInputs)
    (backend : WtgConfig → Except String WriteProgress) (s : WriteUiState)
    (d : DiskInfo) (e : String)
    (hdisk : inp.selectedDisk = some d)
    (hpath : inp.imagePath ≠ "")
    (hplat : ¬(inp.isMacHost = true ∧
      (inp.applyMode = ApplyMode.vhd ∨ inp.applyMode = ApplyMode.vhdx)))
    (herr : backend (buildWtgConfig inp (buildTargetDisk d)) =
      Except.error e) :
    (startWrite inp backend s).2.writeProgress =
      some { task_id := ""
             status := .failed
             progress := 0
             message := e
             speed := none
             elapsed_seconds := none
             estimated_remaining_seconds := none } ∧
    (startWrite inp backend s).2.errorMsg = some e ∧
    (startWrite inp backend s).2.isWriting = false := by
  refine ⟨?_, ?_, ?_⟩ <;> simp [startWrite, hdisk, hpath, hplat, herr]

/-- Witness for C7: the rejecting backend `errBackend` leaves the concrete
failed view with an empty task id. -/
theorem launch_error_sets_failed_view_witness :
    inpWim.selectedDisk = some diskA ∧ inpWim.imagePath ≠ "" ∧
      (startWrite inpWim errBackend initWriteUiState).2.writeProgress =
        some { task_id := ""
               status := .failed
               progress := 0
               message := "device unreachable"
               speed := none
               elapsed_seconds := none
               estimated_remaining_seconds := none } :=
  ⟨rfl, by decide,
    (launch_error_sets_failed_view inpWim errBackend initWriteUiState diskA
      "device unreachable" rfl (by decide) (by decide) rfl).1⟩

/-- C9. Every descriptor `startWrite` launches carries the constant
boot-partition size 300, and its partition layout is `mbr` exactly when
the boot mode is `non_uefi` and `gpt` otherwise (src/src/pages/Write.tsx
lines 163-166). -/
theorem partition_config_derived_from_boot_mode (inp : WriteInputs)
    (backend : WtgConfig → Except String WriteProgress) (s : WriteUiState)
    (cfg : WtgConfig) (s2 : WriteUiState)
    (h : startWrite inp backend s = (StartWriteOutcome.launched cfg, s2)) :
    cfg.partition_config.boot_size = 300 ∧
      cfg.partition_config.partition_layout =
        (if inp.bootMode = BootMode.non_uefi then PartitionLayout.mbr
          else PartitionLayout.gpt) := by
  obtain ⟨d, -, rfl⟩ := startWrite_launched_eq inp backend s cfg s2 h
  exact ⟨rfl, rfl⟩

/-- Witness for C9: the concrete wim launch carries boot size 300 and,
with `uefi_gpt` boot mode, the `gpt` layout. -/
theorem partition_config_derived_from_boot_mode_witness :
    startWrite inpWim okBackend initWriteUiState =
      (StartWriteOutcome.launched (buildWtgConfig inpWim (buildTargetDisk diskA)),
        stateAfterWimLaunch) ∧
      (buildWtgConfig inpWim (buildTargetDisk diskA)).partition_config.boot_size
          = 300 ∧
      (buildWtgConfig inpWim (buildTargetDisk diskA)).partition_config.partition_layout
        = (if inpWim.bootMode = BootMode.non_uefi then PartitionLayout.mbr
            else PartitionLayout.gpt) := by
  have h : startWrite inpWim okBackend initWriteUiState =
      (StartWriteOutcome.launched (buildWtgConfig inpWim (buildTargetDisk diskA)),
        stateAfterWimLaunch) := by decide
  exact ⟨h, partition_config_derived_from_boot_mode inpWim okBackend
    initWriteUiState _ _ h⟩

/-- C10. On a macOS host with a virtual-disk apply mode selected,
`startWrite` (src/src/pages/Write.tsx lines 146-149) records the
operator-visible error and returns before issuing `start_write`: the
resulting state differs only in the error message, the write state is
untouched, and the outcome is independent of the backend. -/
theorem mac_vhd_rejected_up_front (inp : WriteInputs)
    (backend backend2 : WtgConfig → Except String WriteProgress)
    (s : WriteUiState)
    (hmac : inp.isMacHost = true)
    (hmode : inp.applyMode = ApplyMode.vhd ∨ inp.applyMode = ApplyMode.vhdx)
    (hdisk : inp.selectedDisk.isSome = true)
    (hpath : inp.imagePath ≠ "") :
    startWrite inp backend s =
      (StartWriteOutcome.macVhdRejected,
        { s with errorMsg := some macVhdUnsupportedMessage }) ∧
    (startWrite inp backend s).2.isWriting = s.isWriting ∧
    (startWrite inp backend s).2.writeProgress = s.writeProgress ∧
    startWrite inp backend s = startWrite inp backend2 s := by
  obtain ⟨d, hd⟩ := Option.isSome_iff_exists.mp hdisk
  have key : ∀ bk : WtgConfig → Except String WriteProgress,
      startWrite inp bk s =
        (StartWriteOutcome.macVhdRejected,
          { s with errorMsg := some macVhdUnsupportedMessage }) := by
    intro bk
    simp [startWrite, hd, hpath, hmac, hmode]
  refine ⟨key backend, ?_, ?_, (key backend).trans (key backend2).symm⟩
  · rw [key backend]
  · rw [key backend]

/-- Witness for C10: the macOS `vhdx` launch attempt is rejected up front
on the concrete inputs. -/
theorem mac_vhd_rejected_up_front_witness :
    inpMacVhdx.isMacHost = true ∧
      (inpMacVhdx.applyMode = ApplyMode.vhd ∨
        inpMacVhdx.applyMode = ApplyMode.vhdx) ∧
      startWrite inpMacVhdx okBackend initWriteUiState =
        (StartWriteOutcome.macVhdRejected,
          { initWriteUiState with errorMsg := some macVhdUnsupportedMessage }) :=
  ⟨rfl, Or.inr rfl,
    (mac_vhd_rejected_up_front inpMacVhdx okBackend errBackend
      initWriteUiState rfl (Or.inr rfl) rfl (by decide)).1⟩

/-- C3. The claim states that a launch with a virtual-disk source path
always passes a descriptor whose apply mode was forced to the matching
virtual-disk mode, regardless of the user's selection.  `startWrite`
performs no such normalization: after selecting `D:\win.vhdx` (which did
set the mode to `vhdx` at selection time) and then re-selecting `legacy`,
the launched descriptor carries `legacy`. -/
theorem vhdx_source_launch_keeps_user_mode_cex :
    getImageType inpC3.imagePath = ImageType.vhdx ∧
      (launchedConfig (startWrite inpC3 okBackend initWriteUiState).1).map
        WtgConfig.apply_mode = some ApplyMode.legacy ∧
      ApplyMode.legacy ≠ ApplyMode.vhdx := by
  refine ⟨by decide, by decide, by decide⟩

/-- C3 (amended). Selecting a virtual-disk image forces the stored apply
mode to the matching virtual-disk mode at selection time
(src/src/pages/Configure.tsx lines 87-89); the launch itself performs no
normalization — the descriptor always carries whatever apply mode is
stored at launch, so a later manual re-selection survives into the
descriptor. -/
theorem apply_mode_forced_at_selection_not_at_launch :
    (∀ inp path, pathExt path = "vhd" →
      (handleSelectImage inp path).applyMode = ApplyMode.vhd) ∧
    (∀ inp path, pathExt path = "vhdx" →
      (handleSelectImage inp path).applyMode = ApplyMode.vhdx) ∧
    (∀ inp backend s cfg s2,
      startWrite inp backend s = (StartWriteOutcome.launched cfg, s2) →
      cfg.apply_mode = inp.applyMode) := by
  refine ⟨?_, ?_, ?_⟩
  · intro inp path h
    simp [handleSelectImage, h]
  · intro inp path h
    simp [handleSelectImage, h]
  · intro inp backend s cfg s2 h
    obtain ⟨d, -, rfl⟩ := startWrite_launched_eq inp backend s cfg s2 h
    rfl

/-- Witness for C3 (amended): the three concrete component facts. -/
theorem apply_mode_forced_at_selection_not_at_launch_witness :
    (handleSelectImage baseInputs "a.vhd").applyMode = ApplyMode.vhd ∧
      (handleSelectImage baseInputs "b.vhdx").applyMode = ApplyMode.vhdx ∧
      cfgC3.apply_mode = inpC3.applyMode := by
  have h : startWrite inpC3 okBackend initWriteUiState =
      (StartWriteOutcome.launched cfgC3,
        { initWriteUiState with writeProgress := some sampleOkProgress }) := by
    decide
  exact ⟨apply_mode_forced_at_selection_not_at_launch.1 baseInputs "a.vhd"
      (by decide),
    apply_mode_forced_at_selection_not_at_launch.2.1 baseInputs "b.vhdx"
      (by decide),
    apply_mode_forced_at_selection_not_at_launch.2.2 inpC3 okBackend
      initWriteUiState cfgC3 _ h⟩

/-- C6. The claim states that after a `needs_ntfs_remount` report the erase
confirmation appears only once the remount completed and a second
writability check passed.  `handleConfirmNtfsRemount`
(src/src/pages/Write.tsx lines 237-253) opens the erase confirmation as
soon as the remount command returns without throwing — the returned check
still reports the target as not writable and still needing a remount, yet
the dialog opens: the claim is false. -/
theorem remount_result_not_validated_cex :
    sNtfsPending.showEraseConfirmModal = false ∧
      sNtfsPending.showNtfsSafetyModal = true ∧
      checkStillNotWritable.writable = false ∧
      checkStillNotWritable.needs_ntfs_remount = true ∧
      (handleConfirmNtfsRemount inpMacSafe (.ok checkStillNotWritable)
        sNtfsPending).showEraseConfirmModal = true := by
  refine ⟨by decide, by decide, rfl, rfl, by decide⟩

/-- C6 (amended). When the macOS pre-flight reports `needs_ntfs_remount`,
the start click opens only the NTFS safety dialog and leaves the erase
confirmation as it was; a failed remount command never opens the erase
confirmation; and a remount command that returns opens it unconditionally,
without validating the returned check's `writable` or
`needs_ntfs_remount` fields. -/
theorem erase_confirm_gated_on_remount_completion :
    (∀ (inp : WriteInputs) (s : WriteUiState)
        (c : MacosTargetWritableCheck) (d : DiskInfo),
      inp.selectedDisk = some d → inp.imagePath ≠ "" →
      inp.isMacHost = true → inp.extraFeatures.repartition = false →
      inp.extraFeatures.do_not_format = true → c.needs_ntfs_remount = true →
      (handleStartWriteClick inp (.ok c) s).showEraseConfirmModal =
          s.showEraseConfirmModal ∧
        (handleStartWriteClick inp (.ok c) s).showNtfsSafetyModal = true) ∧
    (∀ (inp : WriteInputs) (s : WriteUiState) (e : String),
      (handleConfirmNtfsRemount inp (.error e) s).showEraseConfirmModal =
        s.showEraseConfirmModal) ∧
    (∀ (inp : WriteInputs) (s : WriteUiState)
        (c : MacosTargetWritableCheck) (d : DiskInfo),
      inp.selectedDisk = some d →
      (handleConfirmNtfsRemount inp (.ok c) s).showEraseConfirmModal = true) := by
  refine ⟨?_, ?_, ?_⟩
  · intro inp s c d hd hpath hmac hrep hfmt hneed
    have hm : ¬(inp.isMacHost = false) := by simp [hmac]
    have hreb : ¬(inp.extraFeatures.repartition = true ∨
        inp.extraFeatures.do_not_format = false) := by simp [hrep, hfmt]
    constructor <;>
      simp [handleStartWriteClick, hd, hpath, hm, hreb, hneed]
  · intro inp s e
    cases hd : inp.selectedDisk with
    | none => simp [handleConfirmNtfsRemount, hd]
    | some d => simp [handleConfirmNtfsRemount, hd]
  · intro inp s c d hd
    simp [handleConfirmNtfsRemount, hd]

/-- Witness for C6 (amended): the concrete pre-flight and remount
scenario. -/
theorem erase_confirm_gated_on_remount_completion_witness :
    sNtfsPending.showEraseConfirmModal =
        initWriteUiState.showEraseConfirmModal ∧
      sNtfsPending.showNtfsSafetyModal = true ∧
      (handleConfirmNtfsRemount inpMacSafe (.error "authorization denied")
          sNtfsPending).showEraseConfirmModal =
        sNtfsPending.showEraseConfirmModal ∧
      (handleConfirmNtfsRemount inpMacSafe (.ok checkStillNotWritable)
          sNtfsPending).showEraseConfirmModal = true := by
  have h1 := erase_confirm_gated_on_remount_completion.1 inpMacSafe
    initWriteUiState checkNeedsRemount diskA rfl (by decide) rfl rfl rfl rfl
  exact ⟨h1.1, h1.2,
    erase_confirm_gated_on_remount_completion.2.1 inpMacSafe sNtfsPending
      "authorization denied",
    erase_confirm_gated_on_remount_completion.2.2 inpMacSafe sNtfsPending
      checkStillNotWritable diskA rfl⟩

/-- C8. Each time the erase-confirmation dialog opens, the countdown is
reset to the full 2 seconds (so the confirm control, disabled whenever the
countdown is positive, stays disabled); a confirm click while the
countdown is positive has no effect and does not launch; one interval tick
leaves the countdown at 1 (still disabled) and a second at 0; and once the
countdown is 0 the confirm click closes the dialog and proceeds into
`startWrite`. -/
theorem erase_cooldown_gate :
    (∀ (inp : WriteInputs)
        (res : Except String MacosTargetWritableCheck) (s : WriteUiState),
      s.showEraseConfirmModal = false →
      (handleStartWriteClick inp res s).showEraseConfirmModal = true →
      (handleStartWriteClick inp res s).eraseConfirmCountdown = 2) ∧
    (∀ (inp : WriteInputs)
        (res : Except String MacosTargetWritableCheck) (s : WriteUiState),
      s.showEraseConfirmModal = false →
      (handleConfirmNtfsRemount inp res s).showEraseConfirmModal = true →
      (handleConfirmNtfsRemount inp res s).eraseConfirmCountdown = 2) ∧
    (∀ (inp : WriteInputs)
        (backend : WtgConfig → Except String WriteProgress)
        (s : WriteUiState),
      0 < s.eraseConfirmCountdown →
      handleConfirmStartWrite inp backend s = (none, s)) ∧
    (∀ s : WriteUiState,
      s.showEraseConfirmModal = true → s.eraseConfirmCountdown = 2 →
      (eraseCountdownTick s).eraseConfirmCountdown = 1 ∧
        (eraseCountdownTick (eraseCountdownTick s)).eraseConfirmCountdown = 0) ∧
    (∀ (inp : WriteInputs)
        (backend : WtgConfig → Except String WriteProgress)
        (s : WriteUiState),
      s.eraseConfirmCountdown = 0 →
      (handleConfirmStartWrite inp backend s).1 =
        some (startWrite inp backend
          { s with showEraseConfirmModal := false }).1) := by
  refine ⟨?_, ?_, ?_, ?_, ?_⟩
  · intro inp res s h0 h1
    cases hd : inp.selectedDisk with
    | none => simp [handleStartWriteClick, hd, h0] at h1
    | some d =>
      by_cases hpath : inp.imagePath = ""
      · simp [handleStartWriteClick, hd, hpath, h0] at h1
      · by_cases hmac : inp.isMacHost = false
        · simp [handleStartWriteClick, hd, hpath, hmac]
        · by_cases hreb : inp.extraFeatures.repartition = true ∨
              inp.extraFeatures.do_not_format = false
          · simp [handleStartWriteClick, hd, hpath, hmac, hreb]
          · cases res with
            | error e =>
              simp [handleStartWriteClick, hd, hpath, hmac, hreb, h0] at h1
            | ok c =>
              by_cases hneed : c.needs_ntfs_remount = true
              · simp [handleStartWriteClick, hd, hpath, hmac, hreb, hneed,
                  h0] at h1
              · simp [handleStartWriteClick, hd, hpath, hmac, hreb, hneed]
  · intro inp res s h0 h1
    cases hd : inp.selectedDisk with
    | none => simp [handleConfirmNtfsRemount, hd, h0] at h1
    | some d =>
      cases res with
      | error e => simp [handleConfirmNtfsRemount, hd, h0] at h1
      | ok c => simp [handleConfirmNtfsRemount, hd]
  · intro inp backend s h
    simp [handleConfirmStartWrite, h]
  · intro s h1 h2
    refine ⟨?_, ?_⟩ <;> simp [eraseCountdownTick, h1, h2]
  · intro inp backend s h
    simp [handleConfirmStartWrite, h]

/-- Witness for C8: the concrete opened dialog has countdown 2, the early
click is a no-op, two ticks enable the control, and the click then
proceeds into the launch path. -/
theorem erase_cooldown_gate_witness :
    sEraseOpened.eraseConfirmCountdown = 2 ∧
      handleConfirmStartWrite inpWim okBackend sEraseOpened =
        (none, sEraseOpened) ∧
      (eraseCountdownTick sEraseOpened).eraseConfirmCountdown = 1 ∧
      (eraseCountdownTick (eraseCountdownTick sEraseOpened)).eraseConfirmCountdown
          = 0 ∧
      (handleConfirmStartWrite inpWim okBackend
          (eraseCountdownTick (eraseCountdownTick sEraseOpened))).1 =
        some (startWrite inpWim okBackend
          { eraseCountdownTick (eraseCountdownTick sEraseOpened) with
              showEraseConfirmModal := false }).1 := by
  have hopen := erase_cooldown_gate.1 inpWim (Except.ok checkNeedsRemount)
    initWriteUiState rfl (by decide)
  have hticks := erase_cooldown_gate.2.2.2.1 sEraseOpened (by decide) (by decide)
  exact ⟨hopen,
    erase_cooldown_gate.2.2.1 inpWim okBackend sEraseOpened (by decide),
    hticks.1, hticks.2,
    erase_cooldown_gate.2.2.2.2 inpWim okBackend
      (eraseCountdownTick (eraseCountdownTick sEraseOpened)) (by decide)⟩

/-- C4. The claim states that while a run is in progress the aggregate
never reaches or exceeds 80.  `progressPercent` clamps with `min 80`, so
in the running state in which every selected mode already has a recorded
result (reached after the last mode's reply and before the sequencer
clears the run flag) the aggregate equals exactly 80: the claim's strict
ceiling is false. -/
theorem benchmark_reaches_ceiling_while_running_cex :
    quickAllDoneState.running = true ∧
      progressPercent quickAllDoneState = 80 := by
  refine ⟨rfl, ?_⟩
  norm_num [progressPercent, quickAllDoneState, selectedModes, sumEstimates,
    doneEstimates, estimateModeSeconds, MODE_BASE_ESTIMATE_SECONDS,
    PrimaryBenchmarkMode.toMode, currentEstimateOf, elapsedSecOf, max_def,
    min_def]

/-- C4 (amended). While a run is in progress the aggregate never exceeds
80 (it can reach exactly 80, as the counterexample shows); and the
aggregate equals 100 exactly when no run is in progress, so 100 is only
reported after the sequencer records the run as finished. -/
theorem benchmark_progress_ceiling (s : BenchPageState) :
    (s.running = true → progressPercent s ≤ 80) ∧
      (progressPercent s = 100 ↔ s.running = false) := by
  cases hr : s.running with
  | false =>
    constructor
    · intro h
      simp at h
    · simp [progressPercent, hr]
  | true =>
    have hle : progressPercent s ≤ 80 := by
      simp only [progressPercent, hr]
      simp only [Bool.true_eq_false, if_false]
      exact max_le (by norm_num) (min_le_left _ _)
    refine ⟨fun _ => hle, ?_, ?_⟩
    · intro h100
      rw [h100] at hle
      norm_num at hle
    · intro hf
      exact absurd hf (by decide)

/-- Witness for C4 (amended): the running quick-mode state stays at most
80 and the idle state reports 100. -/
theorem benchmark_progress_ceiling_witness :
    progressPercent quickRunState ≤ 80 ∧
      progressPercent benchIdleState = 100 :=
  ⟨(benchmark_progress_ceiling quickRunState).1 rfl,
    (benchmark_progress_ceiling benchIdleState).2.mpr rfl⟩

/-- C5. The claim states that while a run is in progress the aggregate
equals the time-budget formula exactly.  The code additionally clamps the
formula to [1, 80]: at elapsed 0 the formula yields 0 but the rendered
aggregate is 1, so the unclamped equality is false. -/
theorem benchmark_formula_clamped_below_cex :
    quickJustStartedState.running = true ∧
      progressPercent quickJustStartedState = 1 ∧
      specAggregate quickJustStartedState = 0 := by
  refine ⟨rfl, ?_, ?_⟩ <;>
    norm_num [progressPercent, specAggregate, quickJustStartedState,
      quickRunState, selectedModes, sumEstimates, doneEstimates,
      estimateModeSeconds, MODE_BASE_ESTIMATE_SECONDS,
      PrimaryBenchmarkMode.toMode, currentEstimateOf, elapsedSecOf, max_def,
      min_def]

/-- C5 (amended). While a run is in progress the aggregate equals the
claim's formula — (done estimates + min(elapsed, 0.92 × running estimate))
divided by the total estimate, scaled by 80 — clamped to [1, 80]; inside
the clamp (as in the quoted 40% instance) the two coincide. -/
theorem benchmark_progress_eq_clamped_formula (s : BenchPageState)
    (h : s.running = true) :
    progressPercent s = max 1 (min 80 (specAggregate s)) := by
  have htot : (1 : ℚ) ≤ sumEstimates s.selectedDisk (selectedModes s) :=
    le_trans (by norm_num) (sumEstimates_selected_ge_15 s)
  simp only [progressPercent, specAggregate, h, Bool.true_eq_false, if_false]
  rw [max_eq_right htot, mul_comm (currentEstimateOf s) ((92 : ℚ) / 100)]

/-- Witness for C5 (amended): the spec's example scenario — queue
`[quick]`, 7.5 s elapsed, no result yet — satisfies the clamped equality
and evaluates to the quoted 40%. -/
theorem benchmark_progress_eq_clamped_formula_witness :
    progressPercent quickRunState =
        max 1 (min 80 (specAggregate quickRunState)) ∧
      progressPercent quickRunState = 40 := by
  refine ⟨benchmark_progress_eq_clamped_formula quickRunState rfl, ?_⟩
  norm_num [progressPercent, quickRunState, selectedModes, sumEstimates,
    doneEstimates, estimateModeSeconds, MODE_BASE_ESTIMATE_SECONDS,
    PrimaryBenchmarkMode.toMode, currentEstimateOf, elapsedSecOf, max_def,
    min_def]

end Wtg
